/-
  Verification of the OpenCode agent session & streaming layer
  (`OpencodeService` / `OpencodeServiceWrapper`).

  The TypeScript classes are shallowly embedded as pure Lean functions:
  `this`-state becomes an explicit record that is threaded through every
  call, remote calls become `Except String α` parameters (the `.error`
  case carries the message that the surrounding `catch` would compute
  from the thrown value), and JavaScript truthiness / nullish-coalescing
  are made explicit via small helper functions.
-/
import Mathlib

namespace Opendian

/-- JS truthiness of a `string | null | undefined` value:
`null`/`undefined` and the empty string are falsy. -/
def jsTruthyOptStr : Option String → Bool
  | none => false
  | some s => !s.data.isEmpty

/-- JS nullish coalescing `a ?? b` on `string | null | undefined`. -/
def jsCoalesce : Option String → Option String → Option String
  | none, b => b
  | some a, _ => some a

/-- JS `String.prototype.split(':')` on the character list of a string.
`"".split(':')` is `[""]`; separators at either end produce empty
segments, exactly as in JS. -/
def jsSplitColon : List Char → List (List Char)
  | [] => [[]]
  | c :: cs =>
    let rest := jsSplitColon cs
    if c = ':' then [] :: rest
    else
      match rest with
      | r :: rs => (c :: r) :: rs
      | [] => [[c]]

/-- `Number.prototype.toLocaleString()` for a natural number in the
default `en-US` locale: decimal digits grouped in threes by commas.
`digits` is the reversed digit list of the number. -/
def groupDigitsRev : List Char → List Char
  | [] => []
  | d :: ds =>
    let grp := (d :: ds).take 3
    let rest := (d :: ds).drop 3
    if rest.isEmpty then grp else grp ++ ',' :: groupDigitsRev rest
termination_by l => l.length
decreasing_by simp [List.length_drop]; omega

/-- `n.toLocaleString()` used by `getModels` when formatting context limits. -/
def toLocaleString (n : Nat) : String :=
  String.mk (groupDigitsRev (toString n).toList.reverse).reverse

/-- Shape of the SDK client held in `OpencodeService.client`: which of the
optionally-present remote methods exist (`client.global?.health`,
`client.session?.create`, ...). -/
structure Client where
  hasHealth : Bool := true
  hasProviders : Bool := true
  hasCreate : Bool := true
  hasGet : Bool := true
  hasList : Bool := true
  hasDelete : Bool := true
  hasPrompt : Bool := true
  hasMessages : Bool := true
  hasShare : Bool := true
  hasAbort : Bool := true
deriving DecidableEq, Repr

/-- Cost table of an SDK model (passed through opaquely by `getModels`). -/
structure Cost where
  input : Nat
  output : Nat
deriving DecidableEq, Repr

/-- An SDK model entry inside a provider's `models` record.
`capReasoning` is `capabilities?.reasoning`; `reasoning` is the
top-level fallback field. -/
structure SdkModel where
  name : String
  capReasoning : Option Bool := none
  reasoning : Option Bool := none
  temperature : Bool := false
  limitContext : Option Nat := none
  limitOutput : Option Nat := none
  cost : Option Cost := none
deriving DecidableEq, Repr

/-- A provider as returned by the SDK `/config/providers` endpoint.
`models` is the ordered entry list of the provider's model record
(the order `Object.entries` observes). -/
structure Provider where
  id : String
  name : String
  models : List (String × SdkModel)
deriving DecidableEq, Repr

/-- `OpencodeModel`: a model formatted for the UI selector by `getModels`. -/
structure OpencodeModel where
  value : String
  label : String
  description : String
  provider : String
  providerName : String
  modelId : String
  reasoning : Bool
  temperature : Bool
  contextLimit : Nat
  outputLimit : Nat
  cost : Option Cost
deriving DecidableEq, Repr

/-- `OpencodeStreamChunk`: the chunk record type yielded by
`OpencodeService.query`. All fields other than `type` are optional,
matching the TS object literals (a literal sets only some of them). -/
structure OpencodeStreamChunk where
  type : String
  content : Option String := none
  error : Option String := none
  id : Option String := none
  name : Option String := none
  result : Option String := none
  sessionId : Option String := none
  usageInputTokens : Option Nat := none
  usageOutputTokens : Option Nat := none
deriving DecidableEq, Repr

/-- One part of a backend prompt response (`{type, text?}`). -/
structure ResponsePart where
  type : String
  text : Option String := none
deriving DecidableEq, Repr

/-- The mutable fields of an `OpencodeService` instance.
`abortController` records whether the abort-controller slot is non-null. -/
structure ServiceState where
  client : Option Client := none
  currentSessionId : Option String := none
  abortController : Bool := false
  cachedProviders : Option (List Provider) := none
  cachedModels : Option (List OpencodeModel) := none
deriving DecidableEq, Repr

namespace OpencodeService

/-- `healthCheck()`: `false` when the client is uninitialized or lacks
`global.health`; otherwise the remote call's `data.healthy`, with any
rejection caught and degraded to `false`. -/
def healthCheck (st : ServiceState) (env : Except String Bool) : Bool :=
  match st.client with
  | none => false
  | some c =>
    if c.hasHealth then
      match env with
      | .error _ => false
      | .ok healthy => healthy
    else false

/-- `getProviders()`: serve the cache when present; otherwise fetch from
`client.config.providers`, caching the result. The third component
records whether the remote call was attempted. -/
def getProviders (st : ServiceState) (env : Except String (List Provider)) :
    List Provider × ServiceState × Bool :=
  match st.cachedProviders with
  | some ps => (ps, st, false)
  | none =>
    match st.client with
    | none => ([], st, false)
    | some c =>
      if c.hasProviders then
        match env with
        | .error _ => ([], st, true)
        | .ok ps => (ps, { st with cachedProviders := some ps }, true)
      else ([], st, false)

/-- The model list `getModels` builds from a provider list: one entry per
`Object.entries(provider.models)` pair, in order, with the
`providerId:modelId` compound key and the
`capabilities?.reasoning ?? reasoning ?? false` derivation. -/
def buildModels (providers : List Provider) : List OpencodeModel :=
  providers.flatMap fun p =>
    p.models.map fun pair =>
      let modelId := pair.1
      let m := pair.2
      let reasoning := m.capReasoning.getD (m.reasoning.getD false)
      { value := p.id ++ ":" ++ modelId
        label := m.name ++ " (" ++ p.name ++ ")"
        description :=
          "Context: " ++
            (match m.limitContext with
             | some n => toLocaleString n
             | none => "Unknown") ++
          " tokens" ++ (if reasoning then " • Reasoning" else "")
        provider := p.id
        providerName := p.name
        modelId := modelId
        reasoning := reasoning
        temperature := m.temperature
        contextLimit := m.limitContext.getD 200000
        outputLimit := m.limitOutput.getD 8192
        cost := m.cost }

/-- `getModels()`: serve the model cache when present; otherwise build the
list from `getProviders()` and cache it. The `Bool` records whether a
remote fetch was attempted. -/
def getModels (st : ServiceState) (env : Except String (List Provider)) :
    List OpencodeModel × ServiceState × Bool :=
  match st.cachedModels with
  | some ms => (ms, st, false)
  | none =>
    let r := getProviders st env
    let ms := buildModels r.1
    (ms, { r.2.1 with cachedModels := some ms }, r.2.2)

/-- `clearCache()`: drop both capability caches. -/
def clearCache (st : ServiceState) : ServiceState :=
  { st with cachedProviders := none, cachedModels := none }

/-- `createSession(title?)`: `null` when the client is uninitialized,
lacks `session.create`, or the remote call rejects; on success bind the
new id as the current session. -/
def createSession (st : ServiceState) (_title : Option String)
    (env : Except String String) : Option String × ServiceState :=
  match st.client with
  | none => (none, st)
  | some c =>
    if c.hasCreate then
      match env with
      | .error _ => (none, st)
      | .ok id => (some id, { st with currentSessionId := some id })
    else (none, st)

/-- `getSession(sessionId)`: the session payload, or `null` on any failure.
The payload is opaque to this layer and modelled as a `String`. -/
def getSession (st : ServiceState) (_sessionId : String)
    (env : Except String String) : Option String :=
  match st.client with
  | none => none
  | some c =>
    if c.hasGet then
      match env with
      | .error _ => none
      | .ok d => some d
    else none

/-- `listSessions()`: the session list, or `[]` on any failure. -/
def listSessions (st : ServiceState) (env : Except String (List String)) :
    List String :=
  match st.client with
  | none => []
  | some c =>
    if c.hasList then
      match env with
      | .error _ => []
      | .ok xs => xs
    else []

/-- `deleteSession(sessionId)`: `false` on any failure; on a `true` result
for the currently bound session, unbind it. -/
def deleteSession (st : ServiceState) (sessionId : String)
    (env : Except String Bool) : Bool × ServiceState :=
  match st.client with
  | none => (false, st)
  | some c =>
    if c.hasDelete then
      match env with
      | .error _ => (false, st)
      | .ok b =>
        if b ∧ st.currentSessionId = some sessionId then
          (b, { st with currentSessionId := none })
        else (b, st)
    else (false, st)

/-- `getMessages(sessionId)`: the message list, or `[]` on any failure.
Messages are opaque to this layer and modelled as `String`s. -/
def getMessages (st : ServiceState) (_sessionId : String)
    (env : Except String (List String)) : List String :=
  match st.client with
  | none => []
  | some c =>
    if c.hasMessages then
      match env with
      | .error _ => []
      | .ok xs => xs
    else []

/-- `shareSession(sessionId)`: the share id, or `null` on any failure. -/
def shareSession (st : ServiceState) (_sessionId : String)
    (env : Except String String) : Option String :=
  match st.client with
  | none => none
  | some c =>
    if c.hasShare then
      match env with
      | .error _ => none
      | .ok id => some id
    else none

end OpencodeService

/-- The chunk the query generator yields for one response part:
`reasoning` parts with truthy text become `thinking` chunks, `text`
parts with truthy text become `text` chunks, everything else is skipped. -/
def partToChunks (p : ResponsePart) : List OpencodeStreamChunk :=
  if p.type = "reasoning" ∧ jsTruthyOptStr p.text then
    [{ type := "thinking", content := p.text }]
  else if p.type = "text" ∧ jsTruthyOptStr p.text then
    [{ type := "text", content := p.text }]
  else []

/-- The `for` loop of `query` over `response.parts`, in order. -/
def partsToChunks : List ResponsePart → List OpencodeStreamChunk
  | [] => []
  | p :: ps => partToChunks p ++ partsToChunks ps

/-- The `model` field of the prompt request body, built from
`options?.model`: truthy key split at `':'`, destructured into the first
two segments, kept only when both are non-empty; otherwise `undefined`. -/
def modelBody : Option String → Option (String × String)
  | none => none
  | some s =>
    if s.data.isEmpty then none
    else
      let segs := jsSplitColon s.data
      let providerID := segs.headD []
      let modelID := segs.get? 1
      match modelID with
      | none => none
      | some mid =>
        if ¬providerID.isEmpty ∧ ¬mid.isEmpty then
          some (String.mk providerID, String.mk mid)
        else none

/-- Outcome of one `OpencodeService.query` generator run: the chunks it
yielded, the service state afterwards, whether `session.prompt` was
invoked, and the `model` selector the request carried. -/
structure QueryResult where
  chunks : List OpencodeStreamChunk
  state : ServiceState
  promptCalled : Bool
  promptModel : Option (String × String)
deriving DecidableEq, Repr

namespace OpencodeService

/-- `query(prompt, options)`: guard chunks for a missing client, an
untruthy resolved session id (`options?.sessionId ?? currentSessionId`)
and a missing `session.prompt`; otherwise one prompt round trip whose
response parts are normalized by the part loop and closed by a `done`
chunk, or — when the call rejects — a single `error` chunk carrying
`error instanceof Error ? error.message : 'Unknown error'` (the
`promptEnv` error value is that computed message). The `finally`
clause clears the abort-controller slot. -/
def query (st : ServiceState) (optSessionId : Option String)
    (optModel : Option String)
    (promptEnv : Except String (List ResponsePart)) : QueryResult :=
  match st.client with
  | none =>
    { chunks := [{ type := "error", content := some "OpenCode client not initialized" }]
      state := st, promptCalled := false, promptModel := none }
  | some c =>
    let sessionId := jsCoalesce optSessionId st.currentSessionId
    if ¬jsTruthyOptStr sessionId then
      { chunks := [{ type := "error", content := some "No session ID provided" }]
        state := st, promptCalled := false, promptModel := none }
    else if ¬c.hasPrompt then
      { chunks := [{ type := "error", content := some "Session prompt method not available" }]
        state := st, promptCalled := false, promptModel := none }
    else
      let mb := modelBody optModel
      match promptEnv with
      | .error msg =>
        { chunks := [{ type := "error", content := some msg }]
          state := { st with abortController := false }
          promptCalled := true, promptModel := mb }
      | .ok parts =>
        { chunks :=
            (if parts.isEmpty then [] else partsToChunks parts) ++ [{ type := "done" }]
          state := { st with abortController := false }
          promptCalled := true, promptModel := mb }

end OpencodeService

/-- An observable side effect of `abort()`. -/
inductive AbortEffect
  | signalLocalAbort
  | remoteSessionAbort (sessionId : String)
deriving DecidableEq, Repr

namespace OpencodeService

/-- `abort()`: signal the local abort controller when one is held, and —
whenever a session id is bound (truthy) and the client initialized —
fire a best-effort remote `session.abort`, swallowing its errors. The
instance fields themselves are never written. -/
def abort (st : ServiceState) : ServiceState × List AbortEffect :=
  let localEff := if st.abortController then [AbortEffect.signalLocalAbort] else []
  let remoteEff :=
    match st.currentSessionId, st.client with
    | some sid, some c =>
      if ¬sid.data.isEmpty ∧ c.hasAbort then [AbortEffect.remoteSessionAbort sid] else []
    | _, _ => []
  (st, localEff ++ remoteEff)

/-- `setSessionId(id)`. -/
def setSessionId (st : ServiceState) (id : Option String) : ServiceState :=
  { st with currentSessionId := id }

/-- `getSessionId()`. -/
def getSessionId (st : ServiceState) : Option String :=
  st.currentSessionId

end OpencodeService

/-- `StreamChunk`: the adapter-facing chunk union of the `IAgentService`
contract, one constructor per tag `convertChunk` can produce. -/
inductive StreamChunk
  | text (content : String)
  | thinking (content : String)
  | toolUse (id : String) (name : String) (input : List (String × String))
  | toolResult (id : String) (content : String) (isError : Bool)
  | error (content : String)
  | usage (inputTokens : Nat) (cacheCreationInputTokens : Nat)
      (cacheReadInputTokens : Nat) (contextWindow : Nat)
      (contextTokens : Nat) (percentage : Nat)
  | done
deriving DecidableEq, Repr

/-- The mutable fields of an `OpencodeServiceWrapper` instance that the
claims observe: the wrapped service's state and the wrapper's own bound
session id. -/
structure WrapperState where
  service : ServiceState
  currentSessionId : Option String := none
deriving DecidableEq, Repr

/-- Outcome of one `OpencodeServiceWrapper.query` run: the converted
chunks, the wrapper state afterwards, and whether the wrapper entered
the loop over `opencodeService.query` at all. -/
structure WrapperQueryResult where
  chunks : List StreamChunk
  state : WrapperState
  serviceQueried : Bool
deriving DecidableEq, Repr

namespace OpencodeServiceWrapper

/-- `convertChunk(chunk)`: map an OpenCode stream chunk onto the internal
`StreamChunk` union. Note the `'error'` case reads `chunk.error`, with
fallback `'Unknown error'`. A `'usage'` chunk is not produced by
`OpencodeService.query`, but the case exists; `'session'` renders the
session id into a text chunk (an absent id prints as `undefined`). -/
def convertChunk (c : OpencodeStreamChunk) : StreamChunk :=
  if c.type = "text" then .text (c.content.getD "")
  else if c.type = "thinking" ∨ c.type = "reasoning" then .thinking (c.content.getD "")
  else if c.type = "tool_use" then .toolUse (c.id.getD "") (c.name.getD "unknown") []
  else if c.type = "tool_result" then .toolResult (c.id.getD "") (c.result.getD "") false
  else if c.type = "error" then .error (c.error.getD "Unknown error")
  else if c.type = "usage" then .usage (c.usageInputTokens.getD 0) 0 0 0 0 0
  else if c.type = "session" then
    .text ("[Session: " ++ (match c.sessionId with | some s => s | none => "undefined") ++ "]")
  else if c.type = "done" then .done
  else .text ""

/-- Wrapper `createSession(title?)`: delegate to the service; on a truthy
id, bind it both in the wrapper and (again) in the service. -/
def createSession (w : WrapperState) (title : Option String)
    (env : Except String String) : Option String × WrapperState :=
  let r := OpencodeService.createSession w.service title env
  if jsTruthyOptStr r.1 then
    (r.1, { service := OpencodeService.setSessionId r.2 r.1, currentSessionId := r.1 })
  else (r.1, { w with service := r.2 })

/-- Wrapper `getSessionId()`. -/
def getSessionId (w : WrapperState) : Option String :=
  w.currentSessionId

/-- Wrapper `query(prompt, ...)`: when no session id is bound (truthy),
lazily create one and short-circuit with a single error chunk on
failure; otherwise run the service query with
`sessionId: this.currentSessionId ?? undefined` and the caller's model
option, converting every yielded chunk through `convertChunk`. (The
surrounding `try/catch` never fires: the embedded service query is
total.) -/
def query (w : WrapperState) (_prompt : String) (optModel : Option String)
    (createEnv : Except String String)
    (promptEnv : Except String (List ResponsePart)) : WrapperQueryResult :=
  if ¬jsTruthyOptStr w.currentSessionId then
    let r := createSession w none createEnv
    if ¬jsTruthyOptStr r.1 then
      { chunks := [.error "Failed to create OpenCode session"]
        state := r.2, serviceQueried := false }
    else
      let q := OpencodeService.query r.2.service r.2.currentSessionId optModel promptEnv
      { chunks := q.chunks.map convertChunk
        state := { r.2 with service := q.state }, serviceQueried := true }
  else
    let q := OpencodeService.query w.service w.currentSessionId optModel promptEnv
    { chunks := q.chunks.map convertChunk
      state := { w with service := q.state }, serviceQueried := true }

/-- Wrapper `deleteSession(sessionId)`: delegate to the service; on a
`true` result for the wrapper's own bound session, unbind it. -/
def deleteSession (w : WrapperState) (sessionId : String)
    (env : Except String Bool) : Bool × WrapperState :=
  let r := OpencodeService.deleteSession w.service sessionId env
  if r.1 ∧ w.currentSessionId = some sessionId then
    (r.1, { service := r.2, currentSessionId := none })
  else (r.1, { w with service := r.2 })

end OpencodeServiceWrapper

/-- The per-part chunk mapping as the specification's normalizer section
describes it, written independently of the generator loop: a `reasoning`
part with non-empty text yields one `thinking` chunk, a `text` part
with non-empty text yields one `text` chunk, any other part yields
nothing. Used to compare the source's loop against the spec's words. -/
def specNormalizerChunk (p : ResponsePart) : Option OpencodeStreamChunk :=
  if p.type = "reasoning" ∧ jsTruthyOptStr p.text then
    some { type := "thinking", content := p.text }
  else if p.type = "text" ∧ jsTruthyOptStr p.text then
    some { type := "text", content := p.text }
  else none

/-! ## Helper lemmas -/

/-- The part loop is the `filterMap` of the spec's per-part mapping. -/
lemma partsToChunks_eq_filterMap (ps : List ResponsePart) :
    partsToChunks ps = ps.filterMap specNormalizerChunk := by
  induction ps with
  | nil => rfl
  | cons p ps ih =>
    simp only [partsToChunks, partToChunks, specNormalizerChunk, List.filterMap_cons]
    split_ifs <;> simp [ih]

/-- Every chunk the part loop emits is a `thinking` or a `text` chunk. -/
lemma partsToChunks_types (ps : List ResponsePart) :
    ∀ ch ∈ partsToChunks ps, ch.type = "thinking" ∨ ch.type = "text" := by
  induction ps with
  | nil => intro ch h; simp [partsToChunks] at h
  | cons p ps ih =>
    intro ch h
    simp only [partsToChunks, List.mem_append] at h
    rcases h with h | h
    · unfold partToChunks at h
      split_ifs at h <;> simp_all
    · exact ih ch h

/-- Splitting a colon-free character list is the identity (one segment). -/
lemma jsSplitColon_no_colon (l : List Char) (h : ':' ∉ l) : jsSplitColon l = [l] := by
  induction l with
  | nil => rfl
  | cons c cs ih =>
    have hc : c ≠ ':' := fun hc => h (hc ▸ List.mem_cons_self c cs)
    have hcs : ':' ∉ cs := fun hm => h (List.mem_cons_of_mem c hm)
    simp [jsSplitColon, hc, ih hcs]

/-- Splitting `p ++ ':' ++ m` for colon-free `p`, `m` recovers `[p, m]`. -/
lemma jsSplitColon_append (p m : List Char) (hp : ':' ∉ p) (hm : ':' ∉ m) :
    jsSplitColon (p ++ ':' :: m) = [p, m] := by
  induction p with
  | nil => simp [jsSplitColon, jsSplitColon_no_colon m hm]
  | cons c cs ih =>
    have hc : c ≠ ':' := fun hc => hp (hc ▸ List.mem_cons_self c cs)
    have hcs : ':' ∉ cs := fun hmem => hp (List.mem_cons_of_mem c hmem)
    simp [jsSplitColon, hc, ih hcs]

/-- Character data of a string append. -/
lemma string_append_data (a b : String) : (a ++ b).data = a.data ++ b.data := by
  cases a; cases b; rfl

/-! ## Claims -/

/-- C1: the claim says the adapter surfaces the underlying failure's
message `m` in its terminal `error` chunk. The code does not:
`OpencodeService.query` carries the message in the chunk's `content`
field, while `convertChunk`'s `'error'` case reads the never-set
`error` field, so every service error chunk is converted to the generic
`'Unknown error'` placeholder. This theorem evaluates the code at such
a failing input: the service-level chunk carries
`'OpenCode client not initialized'`, the adapter yields
`'Unknown error'` — for every message `m`. -/
theorem C1_error_message_dropped (m : String) :
    OpencodeServiceWrapper.convertChunk { type := "error", content := some m }
      = StreamChunk.error "Unknown error" ∧
    (OpencodeService.query { client := none } (some "s1") none (.ok [])).chunks
      = [{ type := "error", content := some "OpenCode client not initialized" }] ∧
    (OpencodeServiceWrapper.query
        { service := { client := none }, currentSessionId := some "s1" }
        "hello" none (.ok "sid") (.ok [])).chunks
      = [StreamChunk.error "Unknown error"] := by
  refine ⟨rfl, rfl, rfl⟩

/-- C2: when the wrapper holds no session id and the underlying
`createSession` returns `null`, `query` yields exactly the single chunk
`{type:'error', content:'Failed to create OpenCode session'}` and never
enters the loop over the client's `query`. -/
theorem C2_create_failure_short_circuit (w : WrapperState) (prompt : String)
    (optModel : Option String) (createEnv : Except String String)
    (promptEnv : Except String (List ResponsePart))
    (h1 : OpencodeServiceWrapper.getSessionId w = none)
    (h2 : (OpencodeService.createSession w.service none createEnv).1 = none) :
    (OpencodeServiceWrapper.query w prompt optModel createEnv promptEnv).chunks
      = [StreamChunk.error "Failed to create OpenCode session"] ∧
    (OpencodeServiceWrapper.query w prompt optModel createEnv promptEnv).serviceQueried
      = false := by
  unfold OpencodeServiceWrapper.getSessionId at h1
  unfold OpencodeServiceWrapper.query OpencodeServiceWrapper.createSession
  simp [h1, h2, jsTruthyOptStr]

/-- C2 witness: a wrapper with no bound session over an uninitialized
client short-circuits as claimed. -/
theorem C2_create_failure_short_circuit_witness :
    OpencodeServiceWrapper.getSessionId { service := {}, currentSessionId := none } = none ∧
    (OpencodeService.createSession
        (WrapperState.mk {} none).service none (.ok "x")).1 = none ∧
    ((OpencodeServiceWrapper.query { service := {}, currentSessionId := none }
        "hello" none (.ok "x") (.ok [])).chunks
      = [StreamChunk.error "Failed to create OpenCode session"] ∧
     (OpencodeServiceWrapper.query { service := {}, currentSessionId := none }
        "hello" none (.ok "x") (.ok [])).serviceQueried = false) :=
  ⟨rfl, rfl,
    C2_create_failure_short_circuit { service := {}, currentSessionId := none }
      "hello" none (.ok "x") (.ok []) rfl rfl⟩

/-- C5 counterexample: the claim says `abort()` with a null abort
controller performs no effect; but with a bound session and an
initialized client the code still fires the best-effort remote
`session.abort`, so the effect list is non-empty. -/
theorem C5_abort_counterexample :
    ({ client := some {}, currentSessionId := some "s1" } : ServiceState).abortController
      = false ∧
    (OpencodeService.abort { client := some {}, currentSessionId := some "s1" }).2
      = [AbortEffect.remoteSessionAbort "s1"] ∧
    (OpencodeService.abort { client := some {}, currentSessionId := some "s1" }).2 ≠ [] := by
  refine ⟨rfl, rfl, by decide⟩

/-- C5 amended: `abort()` with no outstanding query (null abort
controller) throws no exception (the embedding is total) and changes no
observable service state; it performs no effect when no truthy session
id is bound or the client is uninitialized, and otherwise its only
effect is the fire-and-forget remote `session.abort` for the bound
session. -/
theorem C5_abort_noop_amended (st : ServiceState)
    (h : st.abortController = false) :
    (OpencodeService.abort st).1 = st ∧
    (jsTruthyOptStr st.currentSessionId = false ∨ st.client = none →
      (OpencodeService.abort st).2 = []) ∧
    (∀ sid c, st.currentSessionId = some sid → sid.data.isEmpty = false →
      st.client = some c → c.hasAbort = true →
      (OpencodeService.abort st).2 = [AbortEffect.remoteSessionAbort sid]) := by
  refine ⟨rfl, ?_, ?_⟩
  · intro hcase
    unfold OpencodeService.abort
    rcases hs : st.currentSessionId with _ | sid <;>
      rcases hc : st.client with _ | c <;> simp [h]
    rcases hcase with hcase | hcase
    · rw [hs] at hcase
      simp [jsTruthyOptStr] at hcase
      intro hne
      exact absurd hcase hne
    · rw [hc] at hcase
      exact absurd hcase (by simp)
  · intro sid c hs hsid hc hab
    unfold OpencodeService.abort
    simp [h, hs, hc, hsid, hab]

/-- C5 amended witness: on a fresh service state (no client, no session,
no abort controller) the amended statement holds concretely. -/
theorem C5_abort_noop_amended_witness :
    (({} : ServiceState).abortController = false) ∧
    ((OpencodeService.abort {}).1 = ({} : ServiceState) ∧
     (jsTruthyOptStr ({} : ServiceState).currentSessionId = false ∨
        ({} : ServiceState).client = none →
       (OpencodeService.abort {}).2 = []) ∧
     (∀ sid c, ({} : ServiceState).currentSessionId = some sid →
        sid.data.isEmpty = false → ({} : ServiceState).client = some c →
        c.hasAbort = true →
        (OpencodeService.abort {}).2 = [AbortEffect.remoteSessionAbort sid])) :=
  ⟨rfl, C5_abort_noop_amended {} rfl⟩

/-- C3: on a successful backend response, `OpencodeService.query` emits —
in the order of the response's part list — one `thinking` chunk per
`reasoning` part with non-empty text, one `text` chunk per `text` part
with non-empty text, nothing for any other part, then a single terminal
`done` chunk; in particular the two-part reasoning/text response yields
exactly the three chunks of the spec's Scenario B, and an empty part
list yields exactly `[done]`. -/
theorem C3_success_normalization (st : ServiceState) (c : Client) (sid : String)
    (parts : List ResponsePart)
    (h1 : st.client = some c) (h2 : c.hasPrompt = true)
    (h3 : sid.data.isEmpty = false) :
    (OpencodeService.query st (some sid) none (.ok parts)).chunks
      = parts.filterMap specNormalizerChunk ++ [{ type := "done" }] ∧
    (OpencodeService.query st (some sid) none
        (.ok [{ type := "reasoning", text := some "t1" },
              { type := "text", text := some "answer" }])).chunks
      = [{ type := "thinking", content := some "t1" },
         { type := "text", content := some "answer" },
         { type := "done" }] ∧
    (OpencodeService.query st (some sid) none (.ok [])).chunks
      = [{ type := "done" }] := by
  have hbody : ∀ ps : List ResponsePart,
      (OpencodeService.query st (some sid) none (.ok ps)).chunks
        = (if ps.isEmpty then [] else partsToChunks ps) ++ [{ type := "done" }] := by
    intro ps
    unfold OpencodeService.query
    rw [h1]
    simp [jsCoalesce, jsTruthyOptStr, h2, h3]
  refine ⟨?_, ?_, ?_⟩
  · rw [hbody]
    cases parts with
    | nil => rfl
    | cons p ps => simp [partsToChunks_eq_filterMap]
  · rw [hbody]; rfl
  · rw [hbody]; rfl

/-- C3 witness: a concrete initialized service with session `"s1"`, on a
response containing a status part, a reasoning part, an empty text part
and a text part, emits exactly the claimed sequence. -/
theorem C3_success_normalization_witness :
    ({ client := some {} } : ServiceState).client = some {} ∧
    Client.hasPrompt {} = true ∧
    ("s1" : String).data.isEmpty = false ∧
    ((OpencodeService.query { client := some {} } (some "s1") none
        (.ok [{ type := "step-start" }, { type := "reasoning", text := some "t" },
              { type := "text", text := some "" }, { type := "text", text := some "ans" }])).chunks
      = ([{ type := "step-start" }, { type := "reasoning", text := some "t" },
          { type := "text", text := some "" },
          { type := "text", text := some "ans" }] : List ResponsePart).filterMap
            specNormalizerChunk ++ [{ type := "done" }] ∧
     (OpencodeService.query { client := some {} } (some "s1") none
        (.ok [{ type := "reasoning", text := some "t1" },
              { type := "text", text := some "answer" }])).chunks
      = [{ type := "thinking", content := some "t1" },
         { type := "text", content := some "answer" },
         { type := "done" }] ∧
     (OpencodeService.query { client := some {} } (some "s1") none (.ok [])).chunks
      = [{ type := "done" }]) :=
  ⟨rfl, rfl, rfl,
    C3_success_normalization { client := some {} } {} "s1"
      [{ type := "step-start" }, { type := "reasoning", text := some "t" },
       { type := "text", text := some "" }, { type := "text", text := some "ans" }]
      rfl rfl rfl⟩

/-- C4: every run of `OpencodeService.query` — uninitialized client,
missing session id, missing prompt method, successful response or
rejected prompt call — yields a chunk sequence whose last chunk is a
`done` or `error` chunk, and no other chunk of the sequence is a
terminal marker. -/
theorem C4_single_terminal_marker (st : ServiceState)
    (optSessionId optModel : Option String)
    (promptEnv : Except String (List ResponsePart)) :
    ∃ pre last,
      (OpencodeService.query st optSessionId optModel promptEnv).chunks
        = pre ++ [last] ∧
      (last.type = "done" ∨ last.type = "error") ∧
      ∀ ch ∈ pre, ch.type ≠ "done" ∧ ch.type ≠ "error" := by
  unfold OpencodeService.query
  rcases st.client with _ | c
  · exact ⟨[], { type := "error", content := some "OpenCode client not initialized" },
      rfl, Or.inr rfl, by simp⟩
  · dsimp only
    by_cases hsid : jsTruthyOptStr (jsCoalesce optSessionId st.currentSessionId) = true
    · by_cases hp : c.hasPrompt = true
      · rcases promptEnv with msg | parts
        · exact ⟨[], { type := "error", content := some msg },
            by simp [hsid, hp], Or.inr rfl, by simp⟩
        · refine ⟨if parts.isEmpty then [] else partsToChunks parts, { type := "done" },
            by simp [hsid, hp], Or.inl rfl, ?_⟩
          intro ch hch
          split_ifs at hch with he
          · simp at hch
          · rcases partsToChunks_types parts ch hch with h | h <;>
              simp [h]
      · exact ⟨[], { type := "error", content := some "Session prompt method not available" },
          by simp [hsid, hp], Or.inr rfl, by simp⟩
    · exact ⟨[], { type := "error", content := some "No session ID provided" },
        by simp [hsid], Or.inr rfl, by simp⟩

/-- C6: the compound key `"<providerId>:<modelId>"` built by `getModels`
splits back — by the `split(':')` destructuring `query` performs — to
exactly the original colon-free pair; and for non-empty segments the
request's model selector is exactly `{providerID, modelID}`. -/
theorem C6_compound_key_roundtrip (pid mid : String)
    (hp : ':' ∉ pid.data) (hm : ':' ∉ mid.data) :
    jsSplitColon (pid ++ ":" ++ mid).data = [pid.data, mid.data] ∧
    (jsSplitColon (pid ++ ":" ++ mid).data).headD [] = pid.data ∧
    (jsSplitColon (pid ++ ":" ++ mid).data).get? 1 = some mid.data ∧
    (pid.data.isEmpty = false → mid.data.isEmpty = false →
      modelBody (some (pid ++ ":" ++ mid)) = some (pid, mid)) := by
  obtain ⟨pd⟩ := pid
  obtain ⟨md⟩ := mid
  have hdata : ((⟨pd⟩ : String) ++ ":" ++ ⟨md⟩).data = pd ++ ':' :: md := by
    rw [string_append_data, string_append_data, List.append_assoc]
    rfl
  have hsplit' : jsSplitColon (pd ++ ':' :: md) = [pd, md] :=
    jsSplitColon_append pd md hp hm
  have hsplit : jsSplitColon ((⟨pd⟩ : String) ++ ":" ++ ⟨md⟩).data = [pd, md] := by
    rw [hdata]; exact hsplit'
  refine ⟨hsplit, by rw [hsplit]; rfl, by rw [hsplit]; rfl, ?_⟩
  intro hpe hme
  have hne : (pd ++ ':' :: md).isEmpty = false := by cases pd <;> rfl
  simp only [modelBody, hdata, hne, Bool.false_eq_true, if_false, hsplit']
  simp [hpe, hme]

/-- C6 witness: the pair `("anthropic", "claude-3")` round-trips through
the compound key, and the model selector recovers it. -/
theorem C6_compound_key_roundtrip_witness :
    (':' ∉ ("anthropic" : String).data) ∧ (':' ∉ ("claude-3" : String).data) ∧
    (jsSplitColon (("anthropic" : String) ++ ":" ++ "claude-3").data
        = [("anthropic" : String).data, ("claude-3" : String).data] ∧
     (jsSplitColon (("anthropic" : String) ++ ":" ++ "claude-3").data).headD []
        = ("anthropic" : String).data ∧
     (jsSplitColon (("anthropic" : String) ++ ":" ++ "claude-3").data).get? 1
        = some ("claude-3" : String).data ∧
     (("anthropic" : String).data.isEmpty = false →
      ("claude-3" : String).data.isEmpty = false →
      modelBody (some (("anthropic" : String) ++ ":" ++ "claude-3"))
        = some ("anthropic", "claude-3"))) :=
  ⟨by decide, by decide,
    C6_compound_key_roundtrip "anthropic" "claude-3" (by decide) (by decide)⟩

/-- `getProviders` never touches the client handle or the model cache. -/
lemma getProviders_frame (s : ServiceState) (env : Except String (List Provider)) :
    (OpencodeService.getProviders s env).2.1.client = s.client ∧
    (OpencodeService.getProviders s env).2.1.cachedModels = s.cachedModels := by
  unfold OpencodeService.getProviders
  rcases hcp : s.cachedProviders with _ | ps
  · rcases hc : s.client with _ | c
    · exact ⟨hc, rfl⟩
    · dsimp only
      split_ifs with h
      · rcases env with e | ps'
        · dsimp only; exact ⟨hc, rfl⟩
        · dsimp only; exact ⟨rfl, rfl⟩
      · exact ⟨hc, rfl⟩
  · exact ⟨rfl, rfl⟩

/-- After any `getModels` call the model cache holds exactly the returned
list, and the client handle is untouched. -/
lemma getModels_caches_result (s : ServiceState) (env : Except String (List Provider)) :
    (OpencodeService.getModels s env).2.1.cachedModels
      = some (OpencodeService.getModels s env).1 ∧
    (OpencodeService.getModels s env).2.1.client = s.client := by
  unfold OpencodeService.getModels
  rcases hcm : s.cachedModels with _ | ms
  · dsimp only
    exact ⟨rfl, (getProviders_frame s env).1⟩
  · exact ⟨hcm, rfl⟩

/-- A `getModels` call on a state whose model cache is populated returns
the cached list, leaves the state alone and performs no fetch. -/
lemma getModels_cache_hit (s : ServiceState) (ms : List OpencodeModel)
    (env : Except String (List Provider)) (h : s.cachedModels = some ms) :
    OpencodeService.getModels s env = (ms, s, false) := by
  unfold OpencodeService.getModels
  rw [h]

/-- After `clearCache`, a `getModels` call on an initialized client with a
providers endpoint attempts a remote fetch, whatever its outcome. -/
lemma getModels_after_clear_fetches (s : ServiceState) (c : Client)
    (env : Except String (List Provider))
    (hc : s.client = some c) (hp : c.hasProviders = true) :
    (OpencodeService.getModels (OpencodeService.clearCache s) env).2.2 = true := by
  unfold OpencodeService.clearCache OpencodeService.getModels OpencodeService.getProviders
  dsimp only
  rw [hc]
  dsimp only
  rw [hp]
  rcases env with e | ps
  · rfl
  · rfl

/-- C7: once `getModels()` has returned a (populated) result, a second
call without an intervening `clearCache()` returns the same cached list
with no further provider fetch and no state change; after
`clearCache()`, the next `getModels()` call attempts a fresh fetch. -/
theorem C7_capability_cache (st : ServiceState) (c : Client)
    (env1 env2 env3 : Except String (List Provider))
    (h1 : st.client = some c) (h2 : c.hasProviders = true)
    (_h3 : (OpencodeService.getModels st env1).1 ≠ []) :
    OpencodeService.getModels (OpencodeService.getModels st env1).2.1 env2
      = ((OpencodeService.getModels st env1).1,
         (OpencodeService.getModels st env1).2.1, false) ∧
    (OpencodeService.getModels
        (OpencodeService.clearCache (OpencodeService.getModels st env1).2.1) env3).2.2
      = true := by
  obtain ⟨hcm, hcl⟩ := getModels_caches_result st env1
  refine ⟨getModels_cache_hit _ _ env2 hcm, ?_⟩
  exact getModels_after_clear_fetches _ c env3 (hcl.trans h1) h2

/-- C7 witness: one provider with one model; the first call populates the
cache, the second serves it, and a post-clear call fetches again. -/
theorem C7_capability_cache_witness :
    ({ client := some {} } : ServiceState).client = some {} ∧
    Client.hasProviders {} = true ∧
    (OpencodeService.getModels { client := some {} }
        (.ok [{ id := "p", name := "P", models := [("m", { name := "M" })] }])).1 ≠ [] ∧
    (OpencodeService.getModels
        (OpencodeService.getModels { client := some {} }
          (.ok [{ id := "p", name := "P", models := [("m", { name := "M" })] }])).2.1
        (.ok [])
      = ((OpencodeService.getModels { client := some {} }
            (.ok [{ id := "p", name := "P", models := [("m", { name := "M" })] }])).1,
         (OpencodeService.getModels { client := some {} }
            (.ok [{ id := "p", name := "P", models := [("m", { name := "M" })] }])).2.1,
         false) ∧
     (OpencodeService.getModels
        (OpencodeService.clearCache
          (OpencodeService.getModels { client := some {} }
            (.ok [{ id := "p", name := "P", models := [("m", { name := "M" })] }])).2.1)
        (.error "down")).2.2 = true) :=
  ⟨rfl, rfl, by decide,
    C7_capability_cache { client := some {} } {}
      (.ok [{ id := "p", name := "P", models := [("m", { name := "M" })] }])
      (.ok []) (.error "down") rfl rfl (by decide)⟩

/-- C8 counterexample: the claim as stated — every listed method returns
its neutral value in **every** state with an uninitialized client —
fails for `getProviders`, which consults `cachedProviders` before
`client`: in the reachable state "client null, providers cache
populated" (e.g. after `cleanup()`, which nulls the client but not the
caches) it returns the stale cached list, not `[]`. -/
theorem C8_neutral_values_counterexample :
    ({ client := none,
       cachedProviders := some [{ id := "p", name := "P", models := [] }] } :
        ServiceState).client = none ∧
    (OpencodeService.getProviders
        { client := none,
          cachedProviders := some [{ id := "p", name := "P", models := [] }] }
        (.ok [])).1
      = [{ id := "p", name := "P", models := [] }] ∧
    (OpencodeService.getProviders
        { client := none,
          cachedProviders := some [{ id := "p", name := "P", models := [] }] }
        (.ok [])).1 ≠ [] := by
  refine ⟨rfl, rfl, by decide⟩

/-- C8 amended: every non-streaming method degrades to its neutral value —
`false`, `null` (`none`), or `[]` — when the underlying remote call
rejects (for any state), and when the client is uninitialized, with the
one exception the cache-first code forces: `getProviders` serves a
populated providers cache without consulting the client, so its
neutrality on an uninitialized client holds exactly when the providers
cache is unpopulated. State is unchanged where the method returns it;
no exception escapes (the embedded methods are total). -/
theorem C8_neutral_values_on_failure (st : ServiceState) (e : String)
    (title : Option String) (sid : String) (ps : List Provider)
    (envB : Except String Bool)
    (envS : Except String String) (envL : Except String (List String))
    (envP : Except String (List Provider)) :
    OpencodeService.healthCheck { st with client := none } envB = false ∧
    OpencodeService.healthCheck st (.error e) = false ∧
    OpencodeService.createSession { st with client := none } title envS
      = (none, { st with client := none }) ∧
    OpencodeService.createSession st title (.error e) = (none, st) ∧
    OpencodeService.getSession { st with client := none } sid envS = none ∧
    OpencodeService.getSession st sid (.error e) = none ∧
    OpencodeService.listSessions { st with client := none } envL = [] ∧
    OpencodeService.listSessions st (.error e) = [] ∧
    OpencodeService.deleteSession { st with client := none } sid envB
      = (false, { st with client := none }) ∧
    OpencodeService.deleteSession st sid (.error e) = (false, st) ∧
    OpencodeService.getMessages { st with client := none } sid envL = [] ∧
    OpencodeService.getMessages st sid (.error e) = [] ∧
    OpencodeService.shareSession { st with client := none } sid envS = none ∧
    OpencodeService.shareSession st sid (.error e) = none ∧
    (OpencodeService.getProviders { st with client := none, cachedProviders := none }
        envP).1 = [] ∧
    (OpencodeService.getProviders { st with cachedProviders := none } (.error e)).1
      = [] ∧
    (OpencodeService.getProviders { st with client := none, cachedProviders := some ps }
        envP).1 = ps := by
  refine ⟨rfl, ?_, rfl, ?_, rfl, ?_, rfl, ?_, rfl, ?_, rfl, ?_, rfl, ?_, rfl, ?_, rfl⟩
  · rcases hc : st.client with _ | c <;> simp [OpencodeService.healthCheck, hc]
  · rcases hc : st.client with _ | c <;> simp [OpencodeService.createSession, hc]
  · rcases hc : st.client with _ | c <;> simp [OpencodeService.getSession, hc]
  · rcases hc : st.client with _ | c <;> simp [OpencodeService.listSessions, hc]
  · rcases hc : st.client with _ | c <;> simp [OpencodeService.deleteSession, hc]
  · rcases hc : st.client with _ | c <;> simp [OpencodeService.getMessages, hc]
  · rcases hc : st.client with _ | c <;> simp [OpencodeService.shareSession, hc]
  · rcases hc : st.client with _ | c
    · simp [OpencodeService.getProviders, hc]
    · simp [OpencodeService.getProviders, hc]
      split_ifs <;> rfl

/-- C9: `deleteSession(id)` — on both the service and the wrapper —
unbinds the current session exactly when the deletion returned `true`
and the bound session equals `id`; in every other case the binding is
untouched, and the service's other fields are never written. -/
theorem C9_delete_session_binding (st : ServiceState) (w : WrapperState)
    (sid : String) (env : Except String Bool) :
    ((OpencodeService.deleteSession st sid env).2.currentSessionId
      = if (OpencodeService.deleteSession st sid env).1 = true ∧
            st.currentSessionId = some sid
        then none else st.currentSessionId) ∧
    (OpencodeService.deleteSession st sid env).2.client = st.client ∧
    (OpencodeService.deleteSession st sid env).2.abortController
      = st.abortController ∧
    (OpencodeService.deleteSession st sid env).2.cachedProviders
      = st.cachedProviders ∧
    (OpencodeService.deleteSession st sid env).2.cachedModels = st.cachedModels ∧
    (OpencodeServiceWrapper.deleteSession w sid env).1
      = (OpencodeService.deleteSession w.service sid env).1 ∧
    ((OpencodeServiceWrapper.deleteSession w sid env).2.currentSessionId
      = if (OpencodeService.deleteSession w.service sid env).1 = true ∧
            w.currentSessionId = some sid
        then none else w.currentSessionId) ∧
    (OpencodeServiceWrapper.deleteSession w sid env).2.service
      = (OpencodeService.deleteSession w.service sid env).2 := by
  have key : ∀ s : ServiceState,
      ((OpencodeService.deleteSession s sid env).1 = true ∧
        s.currentSessionId = some sid ∧
        (OpencodeService.deleteSession s sid env).2
          = { s with currentSessionId := none }) ∨
      (¬((OpencodeService.deleteSession s sid env).1 = true ∧
          s.currentSessionId = some sid) ∧
        (OpencodeService.deleteSession s sid env).2 = s) := by
    intro s
    unfold OpencodeService.deleteSession
    rcases hc : s.client with _ | c
    · exact Or.inr ⟨by simp, rfl⟩
    · dsimp only
      split_ifs with hd
      · rcases env with e' | b
        · exact Or.inr ⟨by simp, rfl⟩
        · dsimp only
          by_cases hcond : b = true ∧ s.currentSessionId = some sid
          · refine Or.inl ?_
            rw [if_pos hcond]
            exact ⟨hcond.1, hcond.2, rfl⟩
          · refine Or.inr ?_
            rw [if_neg hcond]
            exact ⟨hcond, rfl⟩
      · exact Or.inr ⟨by simp, rfl⟩
  have hwdef :
      OpencodeServiceWrapper.deleteSession w sid env
        = (if (OpencodeService.deleteSession w.service sid env).1 = true ∧
              w.currentSessionId = some sid
           then ((OpencodeService.deleteSession w.service sid env).1,
                 { service := (OpencodeService.deleteSession w.service sid env).2,
                   currentSessionId := none })
           else ((OpencodeService.deleteSession w.service sid env).1,
                 { w with service := (OpencodeService.deleteSession w.service sid env).2 })) := by
    unfold OpencodeServiceWrapper.deleteSession
    rfl
  have s1 : (OpencodeService.deleteSession st sid env).2.currentSessionId
      = if (OpencodeService.deleteSession st sid env).1 = true ∧
            st.currentSessionId = some sid
        then none else st.currentSessionId := by
    rcases key st with ⟨hb, hcur, hst⟩ | ⟨hneg, hst⟩
    · rw [hst, if_pos ⟨hb, hcur⟩]
    · rw [hst, if_neg hneg]
  have s2 : (OpencodeService.deleteSession st sid env).2.client = st.client := by
    rcases key st with ⟨hb, hcur, hst⟩ | ⟨hneg, hst⟩ <;> rw [hst]
  have s3 : (OpencodeService.deleteSession st sid env).2.abortController
      = st.abortController := by
    rcases key st with ⟨hb, hcur, hst⟩ | ⟨hneg, hst⟩ <;> rw [hst]
  have s4 : (OpencodeService.deleteSession st sid env).2.cachedProviders
      = st.cachedProviders := by
    rcases key st with ⟨hb, hcur, hst⟩ | ⟨hneg, hst⟩ <;> rw [hst]
  have s5 : (OpencodeService.deleteSession st sid env).2.cachedModels
      = st.cachedModels := by
    rcases key st with ⟨hb, hcur, hst⟩ | ⟨hneg, hst⟩ <;> rw [hst]
  have w1 : (OpencodeServiceWrapper.deleteSession w sid env).1
      = (OpencodeService.deleteSession w.service sid env).1 := by
    rw [hwdef]; split_ifs <;> rfl
  have w2 : (OpencodeServiceWrapper.deleteSession w sid env).2.currentSessionId
      = if (OpencodeService.deleteSession w.service sid env).1 = true ∧
            w.currentSessionId = some sid
        then none else w.currentSessionId := by
    rw [hwdef]; split_ifs <;> rfl
  have w3 : (OpencodeServiceWrapper.deleteSession w sid env).2.service
      = (OpencodeService.deleteSession w.service sid env).2 := by
    rw [hwdef]; split_ifs <;> rfl
  exact ⟨s1, s2, s3, s4, s5, w1, w2, w3⟩

/-- C10: a malformed model key — no `':'`, or an empty segment before or
after the first `':'` — makes `query` omit the model selector
(`undefined`) while otherwise proceeding exactly as a query with no
model option: the prompt request is still sent and no error chunk is
produced. -/
theorem C10_malformed_model_key (st : ServiceState) (c : Client) (sid s : String)
    (promptEnv : Except String (List ResponsePart))
    (h1 : st.client = some c) (h2 : c.hasPrompt = true)
    (h3 : sid.data.isEmpty = false)
    (h4 : (jsSplitColon s.data).headD [] = [] ∨
          ((jsSplitColon s.data).get? 1).getD [] = []) :
    modelBody (some s) = none ∧
    OpencodeService.query st (some sid) (some s) promptEnv
      = OpencodeService.query st (some sid) none promptEnv ∧
    (OpencodeService.query st (some sid) (some s) promptEnv).promptCalled = true ∧
    (OpencodeService.query st (some sid) (some s) promptEnv).promptModel = none := by
  have hmb : modelBody (some s) = none := by
    simp only [List.get?_eq_getElem?] at h4
    by_cases hs : s.data.isEmpty = true
    · simp [modelBody, hs]
    · rcases hg : (jsSplitColon s.data)[1]? with _ | l
      · simp [modelBody, hs, hg]
      · rcases h4 with h4 | h4
        · have hh : (jsSplitColon s.data).head?.getD [] = [] := by simpa using h4
          simp [modelBody, hs, hg, hh]
        · rw [hg] at h4
          simp only [Option.getD_some] at h4
          simp [modelBody, hs, hg, h4]
  have hq : OpencodeService.query st (some sid) (some s) promptEnv
      = OpencodeService.query st (some sid) none promptEnv := by
    unfold OpencodeService.query
    rw [h1]
    dsimp only
    rw [hmb]
    rfl
  have hrun : (OpencodeService.query st (some sid) none promptEnv).promptCalled = true ∧
      (OpencodeService.query st (some sid) none promptEnv).promptModel = none := by
    unfold OpencodeService.query
    rw [h1]
    dsimp only
    simp only [jsCoalesce, jsTruthyOptStr, h3, h2]
    rcases promptEnv with e | parts <;> simp [modelBody]
  exact ⟨hmb, hq, hq ▸ hrun.1, hq ▸ hrun.2⟩

/-- C10 witness: the colon-free key `"nomodel"` on an initialized client
with session `"s1"` omits the selector and the query proceeds. -/
theorem C10_malformed_model_key_witness :
    ({ client := some {} } : ServiceState).client = some {} ∧
    Client.hasPrompt {} = true ∧
    ("s1" : String).data.isEmpty = false ∧
    ((jsSplitColon ("nomodel" : String).data).headD [] = [] ∨
      ((jsSplitColon ("nomodel" : String).data).get? 1).getD [] = []) ∧
    (modelBody (some "nomodel") = none ∧
     OpencodeService.query { client := some {} } (some "s1") (some "nomodel") (.ok [])
       = OpencodeService.query { client := some {} } (some "s1") none (.ok []) ∧
     (OpencodeService.query { client := some {} } (some "s1") (some "nomodel")
        (.ok [])).promptCalled = true ∧
     (OpencodeService.query { client := some {} } (some "s1") (some "nomodel")
        (.ok [])).promptModel = none) :=
  ⟨rfl, rfl, rfl, Or.inr (by decide),
    C10_malformed_model_key { client := some {} } {} "s1" "nomodel" (.ok [])
      rfl rfl rfl (Or.inr (by decide))⟩

end Opendian
